import Mathlib

/-!
Shallow embedding of the ramms-avalanche-viewer core pipeline
(`src/utils/interpolation.ts`, `src/utils/colorUtils.ts`,
`src/core/MeshGenerator.ts`, `src/core/TiffLoader.ts`,
`src/core/AvalancheSimulation.ts`, `src/core/SimulationManager.ts`).

JavaScript numbers are modelled by `ℚ`; a value that may be `NaN` or
`undefined` (a raster pixel read) is modelled by `Option ℚ` with `none`
standing for NaN/undefined.  All comparisons against NaN in the source are
of the form `value > 0`, which is `false` for NaN, matching the `none`
branches below.  `Math.floor` is `Int.floor`; `Math.round` rounds half
towards positive infinity, modelled by `jsRound`.
-/

namespace Ramms

/-- `Math.round` in JavaScript: round half up. -/
def jsRound (q : ℚ) : ℤ := ⌊q + 1/2⌋

/-- RGBA color as channel quadruple `[r, g, b, a]` (from `config/types.ts`). -/
abbrev RGBA := ℤ × ℤ × ℤ × ℤ

/-- Color stop for gradient interpolation (from `config/types.ts`). -/
structure ColorStop where
  value : ℚ
  color : RGBA
deriving DecidableEq

/-- Channel-wise linear interpolation between two stops, the body of the
return inside the loop of `getColorFromHeight` (`colorUtils.ts` lines 192-204):
`t = (value - prev.value) / (curr.value - prev.value)` and each channel is
`Math.round(prev[c] + t * (curr[c] - prev[c]))`. -/
def lerpColor (prev curr : ColorStop) (value : ℚ) : RGBA :=
  let t := (value - prev.value) / (curr.value - prev.value)
  (jsRound ((prev.color.1 : ℚ) + t * ((curr.color.1 : ℚ) - (prev.color.1 : ℚ))),
   jsRound ((prev.color.2.1 : ℚ) + t * ((curr.color.2.1 : ℚ) - (prev.color.2.1 : ℚ))),
   jsRound ((prev.color.2.2.1 : ℚ) + t * ((curr.color.2.2.1 : ℚ) - (prev.color.2.2.1 : ℚ))),
   jsRound ((prev.color.2.2.2 : ℚ) + t * ((curr.color.2.2.2 : ℚ) - (prev.color.2.2.2 : ℚ))))

/-- The `for (let i = 1; i < stops.length; i++)` scan of `getColorFromHeight`
(`colorUtils.ts` lines 192-205), rendered structurally: `prev` is
`stops[i-1]`, the list argument is the remaining `stops[i..]`, and
`lastColor` is the post-loop fallback `stops[stops.length-1].color`. -/
def colorScan (value : ℚ) (prev : ColorStop) : List ColorStop → RGBA → RGBA
  | [], lastColor => lastColor
  | curr :: rest, lastColor =>
    if value ≤ curr.value then lerpColor prev curr value
    else colorScan value curr rest lastColor

/-- `getColorFromHeight` from `colorUtils.ts`.  The source reads `stops[0]`
unconditionally, so the empty-stop-list case is undefined behaviour in JS;
the `[]` branch below is never reached under the ≥ 1 stop precondition of
every caller and of the data-model contract. -/
def getColorFromHeight (value : ℚ) (stops : List ColorStop) : RGBA :=
  match stops with
  | [] => (0, 0, 0, 0)
  | s0 :: rest =>
    let last := (s0 :: rest).getLastD s0
    if value ≤ s0.value then s0.color
    else if last.value ≤ value then last.color
    else colorScan value s0 rest last.color

/-- Read `grid[i]` for an integer index, defaulting to 0.  In JS an
out-of-range read yields `undefined` and poisons the arithmetic; all uses
in scope stay in range, so the default never feeds a result. -/
def gridGet (grid : List ℚ) (i : ℤ) : ℚ :=
  if 0 ≤ i then grid.getD i.toNat 0 else 0

/-- `bilinearInterpolate` from `interpolation.ts` lines 8-35. -/
def bilinearInterpolate (grid : List ℚ) (srcRes : Nat) (x y : ℚ) : ℚ :=
  let fx := x * ((srcRes : ℚ) - 1)
  let fy := y * ((srcRes : ℚ) - 1)
  let x0 := ⌊fx⌋
  let y0 := ⌊fy⌋
  let x1 := min (x0 + 1) ((srcRes : ℤ) - 1)
  let y1 := min (y0 + 1) ((srcRes : ℤ) - 1)
  let tx := fx - (x0 : ℚ)
  let ty := fy - (y0 : ℚ)
  let v00 := gridGet grid (y0 * srcRes + x0)
  let v10 := gridGet grid (y0 * srcRes + x1)
  let v01 := gridGet grid (y1 * srcRes + x0)
  let v11 := gridGet grid (y1 * srcRes + x1)
  let v0 := v00 * (1 - tx) + v10 * tx
  let v1 := v01 * (1 - tx) + v11 * tx
  v0 * (1 - ty) + v1 * ty

/-- Gaussian weight of the 3×3 kernel: center 4, edge-adjacent 2, corner 1
(`interpolation.ts` line 79). -/
def gaussWeight (dy dx : ℤ) : ℚ :=
  if dx = 0 ∧ dy = 0 then 4 else if dx = 0 ∨ dy = 0 then 2 else 1

/-- One `(dy, dx)` step of the inner double loop of `applyGaussianSmooth`
(`interpolation.ts` lines 69-88): the pair is the contribution added to
`(sum, weight)`; nothing is added outside the grid or for a non-positive
neighbor value. -/
def neighborTerm (g : List ℚ) (res : Nat) (x y dy dx : ℤ) : ℚ × ℚ :=
  let nx := x + dx
  let ny := y + dy
  if 0 ≤ nx ∧ nx < (res : ℤ) ∧ 0 ≤ ny ∧ ny < (res : ℤ) then
    let nVal := gridGet g (ny * res + nx)
    let w := gaussWeight dy dx
    if 0 < nVal then (nVal * w, w) else (0, 0)
  else (0, 0)

/-- The `(dy, dx)` iteration order of the kernel loops (`dy` outer). -/
def kernelOffsets : List (ℤ × ℤ) :=
  [(-1, -1), (-1, 0), (-1, 1), (0, -1), (0, 0), (0, 1), (1, -1), (1, 0), (1, 1)]

/-- Body of the per-cell computation of `applyGaussianSmooth`
(`interpolation.ts` lines 56-90): zero cells stay zero; otherwise the
weighted average of the positive neighbors, or the center value itself when
the accumulated weight is zero. -/
def smoothCell (g : List ℚ) (res : Nat) (x y : ℤ) : ℚ :=
  let centerVal := gridGet g (y * res + x)
  if centerVal = 0 then 0
  else
    let acc := kernelOffsets.foldl
      (fun acc d =>
        let t := neighborTerm g res x y d.1 d.2
        (acc.1 + t.1, acc.2 + t.2)) (0, 0)
    if 0 < acc.2 then acc.1 / acc.2 else centerVal

/-- One pass of `applyGaussianSmooth`: the `y`/`x` double loop writing
`smoothed[y*res+x]`, traversed in row-major index order. -/
def smoothOnePass (g : List ℚ) (res : Nat) : List ℚ :=
  (List.range (res * res)).map (fun (idx : ℕ) =>
    smoothCell g res ((idx % res : ℕ) : ℤ) ((idx / res : ℕ) : ℤ))

/-- `applyGaussianSmooth` from `interpolation.ts` lines 44-98: `passes`
sequential convolution steps. -/
def applyGaussianSmooth (g : List ℚ) (res : Nat) (passes : Nat) : List ℚ :=
  match passes with
  | 0 => g
  | p + 1 => applyGaussianSmooth (smoothOnePass g res) res p

/-- `upsampleGrid` from `interpolation.ts` lines 107-125. -/
def upsampleGrid (srcGrid : List ℚ) (srcRes dstRes : Nat) (flattenPasses : Nat) : List ℚ :=
  let dstGrid := (List.range (dstRes * dstRes)).map (fun idx =>
    let x := idx % dstRes
    let y := idx / dstRes
    bilinearInterpolate srcGrid srcRes ((x : ℚ) / ((dstRes : ℚ) - 1)) ((y : ℚ) / ((dstRes : ℚ) - 1)))
  applyGaussianSmooth dstGrid dstRes flattenPasses

/-- Geographic extent with spatial-reference id (`ExtentData` of
`config/types.ts`; the nested `spatialReference.wkid` is flattened). -/
structure ExtentData where
  xmin : ℚ
  ymin : ℚ
  xmax : ℚ
  ymax : ℚ
  wkid : ℤ
deriving DecidableEq

/-- `FlowHeightData` of `config/types.ts`: resampled flow-height grid plus
per-frame statistics. -/
structure FlowHeightData where
  flowHeights : List ℚ
  extent : ExtentData
  width : Nat
  height : Nat
  maxHeight : ℚ
  nonZeroCount : Nat
deriving DecidableEq

/-- `GridData` of `config/types.ts`: ground sample points and elevations. -/
structure GridData where
  points : List (ℚ × ℚ)
  elevations : List ℚ
deriving DecidableEq

/-- `TerrainConfig` of `config/types.ts`. -/
structure TerrainConfig where
  exaggerationFactor : ℚ
  gridResolution : Nat
deriving DecidableEq

/-- `generateSmoothedGrid` from `interpolation.ts` lines 130-172.  The
`resolution` field of the returned record equals `(baseRes-1)*factor+1`. -/
def generateSmoothedGrid (basePoints : List (ℚ × ℚ)) (baseElevations : List ℚ)
    (baseRes : Nat) (factor : Nat) : GridData :=
  let smoothRes := (baseRes - 1) * factor + 1
  let xMin := (basePoints.getD 0 (0, 0)).1
  let xMax := (basePoints.getD (baseRes - 1) (0, 0)).1
  let yMax := (basePoints.getD 0 (0, 0)).2
  let yMin := (basePoints.getD ((baseRes - 1) * baseRes) (0, 0)).2
  let pts := (List.range (smoothRes * smoothRes)).map (fun idx =>
    let x := idx % smoothRes
    let y := idx / smoothRes
    let normX := (x : ℚ) / ((smoothRes : ℚ) - 1)
    let normY := (y : ℚ) / ((smoothRes : ℚ) - 1)
    (xMin + normX * (xMax - xMin), yMax - normY * (yMax - yMin)))
  let elevs := (List.range (smoothRes * smoothRes)).map (fun idx =>
    let x := idx % smoothRes
    let y := idx / smoothRes
    bilinearInterpolate baseElevations baseRes
      ((x : ℚ) / ((smoothRes : ℚ) - 1)) ((y : ℚ) / ((smoothRes : ℚ) - 1)))
  { points := pts, elevations := elevs }

/-- A mesh as assembled by `createMesh` (`MeshGenerator.ts` lines 140-158):
flat per-triangle vertex positions, flat per-vertex colors, flat face index
list, and the spatial reference id copied from the frame's extent. -/
structure Mesh where
  flatPositions : List ℚ
  flatColors : List ℤ
  flatFaces : List Nat
  wkid : ℤ
deriving DecidableEq

/-- The grid resolution selected by `createMesh` (`MeshGenerator.ts` lines
32-47): upsampled when `smoothingFactor > 1` and a smoothed grid exists. -/
def effResolution (baseRes smoothingFactor : Nat) (smoothedGridData : Option GridData) : Nat :=
  if 1 < smoothingFactor ∧ smoothedGridData.isSome then
    (baseRes - 1) * smoothingFactor + 1
  else baseRes

/-- The flow-height grid actually triangulated by `createMesh`
(`smoothedFlowHeights` in `MeshGenerator.ts` lines 30-47). -/
def effFlowHeights (flowHeights : List ℚ) (baseRes smoothingFactor flattenPasses : Nat)
    (smoothedGridData : Option GridData) : List ℚ :=
  if 1 < smoothingFactor ∧ smoothedGridData.isSome then
    upsampleGrid flowHeights baseRes ((baseRes - 1) * smoothingFactor + 1) flattenPasses
  else flowHeights

/-- The ground grid (points and elevations) selected by `createMesh`. -/
def effGrid (gridData : GridData) (smoothingFactor : Nat)
    (smoothedGridData : Option GridData) : GridData :=
  if 1 < smoothingFactor ∧ smoothedGridData.isSome then
    smoothedGridData.getD gridData
  else gridData

/-- The two per-cell culling tests of `createMesh` (`MeshGenerator.ts`
lines 85-132): triangle A `(i, i+1, i+res)` is kept when one of `f1,f2,f3`
is positive, triangle B `(i+1, i+res+1, i+res)` when one of `f2,f4,f3` is. -/
def cellTris (h : List ℚ) (res : Nat) (x y : Nat) : List (Nat × Nat × Nat) :=
  let i := y * res + x
  let t1 :=
    if 0 < h.getD i 0 ∨ 0 < h.getD (i + 1) 0 ∨ 0 < h.getD (i + res) 0 then
      [(i, i + 1, i + res)]
    else []
  let t2 :=
    if 0 < h.getD (i + 1) 0 ∨ 0 < h.getD (i + res + 1) 0 ∨ 0 < h.getD (i + res) 0 then
      [(i + 1, i + res + 1, i + res)]
    else []
  t1 ++ t2

/-- The corner-index triples of the triangles emitted by the double loop of
`createMesh` (`MeshGenerator.ts` lines 72-134), in emission order. -/
def meshTriIndices (h : List ℚ) (res : Nat) : List (Nat × Nat × Nat) :=
  (List.range (res - 1)).flatMap (fun y => (List.range (res - 1)).flatMap (fun x => cellTris h res x y))

/-- The per-vertex `positions` array of `createMesh` (`MeshGenerator.ts`
lines 50-65), flat `x,y,z` triples: `z = groundElev + flowHeight *
exaggerationFactor + 1`. -/
def vertexPositions (tc : TerrainConfig) (points : List (ℚ × ℚ)) (elevs sfh : List ℚ) : List ℚ :=
  (List.range points.length).flatMap (fun i =>
    let p := points.getD i (0, 0)
    [p.1, p.2, elevs.getD i 0 + sfh.getD i 0 * tc.exaggerationFactor + 1])

/-- The per-vertex `colors` array of `createMesh` (`MeshGenerator.ts` lines
63-64), flat RGBA quadruples from `getColorFromHeight`. -/
def vertexColors (stops : List ColorStop) (points : List (ℚ × ℚ)) (sfh : List ℚ) : List ℤ :=
  (List.range points.length).flatMap (fun i =>
    let c := getColorFromHeight (sfh.getD i 0) stops
    [c.1, c.2.1, c.2.2.1, c.2.2.2])

/-- One round of the triangle-emission body (`MeshGenerator.ts` lines
86-132): append the three corner positions, the averaged flat color taken
three times, and the face triple starting at the running base index. -/
def emitTri (positions : List ℚ) (colors : List ℤ)
    (acc : List ℚ × List ℤ × List Nat) (t : Nat × Nat × Nat) : List ℚ × List ℤ × List Nat :=
  let (i1, i2, i3) := t
  let baseIdx := acc.1.length / 3
  let avg0 := jsRound (((colors.getD (i1 * 4) 0 + colors.getD (i2 * 4) 0 + colors.getD (i3 * 4) 0 : ℤ) : ℚ) / 3)
  let avg1 := jsRound (((colors.getD (i1 * 4 + 1) 0 + colors.getD (i2 * 4 + 1) 0 + colors.getD (i3 * 4 + 1) 0 : ℤ) : ℚ) / 3)
  let avg2 := jsRound (((colors.getD (i1 * 4 + 2) 0 + colors.getD (i2 * 4 + 2) 0 + colors.getD (i3 * 4 + 2) 0 : ℤ) : ℚ) / 3)
  let avg3 := jsRound (((colors.getD (i1 * 4 + 3) 0 + colors.getD (i2 * 4 + 3) 0 + colors.getD (i3 * 4 + 3) 0 : ℤ) : ℚ) / 3)
  (acc.1 ++
    [positions.getD (i1 * 3) 0, positions.getD (i1 * 3 + 1) 0, positions.getD (i1 * 3 + 2) 0,
     positions.getD (i2 * 3) 0, positions.getD (i2 * 3 + 1) 0, positions.getD (i2 * 3 + 2) 0,
     positions.getD (i3 * 3) 0, positions.getD (i3 * 3 + 1) 0, positions.getD (i3 * 3 + 2) 0],
   acc.2.1 ++ [avg0, avg1, avg2, avg3, avg0, avg1, avg2, avg3, avg0, avg1, avg2, avg3],
   acc.2.2 ++ [baseIdx, baseIdx + 1, baseIdx + 2])

/-- `createMesh` from `MeshGenerator.ts` lines 12-159.  The color-stop list
(the `COLOR_STOPS` constant of `config/constants.ts`, a file not part of
the sources here) is passed explicitly; no claim depends on its value. -/
def createMesh (stops : List ColorStop) (flowData : FlowHeightData) (gridData : GridData)
    (smoothedGridData : Option GridData) (terrainConfig : TerrainConfig)
    (smoothingFactor flattenPasses : Nat) : Option Mesh :=
  let baseRes := terrainConfig.gridResolution
  if flowData.nonZeroCount = 0 then none
  else
    let resolution := effResolution baseRes smoothingFactor smoothedGridData
    let sfh := effFlowHeights flowData.flowHeights baseRes smoothingFactor flattenPasses smoothedGridData
    let g := effGrid gridData smoothingFactor smoothedGridData
    let positions := vertexPositions terrainConfig g.points g.elevations sfh
    let colors := vertexColors stops g.points sfh
    let flat := (meshTriIndices sfh resolution).foldl (emitTri positions colors) ([], [], [])
    if flat.1.length = 0 then none
    else some { flatPositions := flat.1, flatColors := flat.2.1, flatFaces := flat.2.2,
                wkid := flowData.extent.wkid }

/-- `AvalancheConfig` of `config/types.ts` (string metadata dropped except
the id, which `SimulationManager` keys on). -/
structure AvalancheConfig where
  id : String
  timeInterval : ℚ
  timeRange : ℚ × ℚ
deriving DecidableEq

/-- The `for (let t = start; t <= end; t += interval)` loop of
`generateTimeSteps` (`TiffLoader.ts` lines 15-25), driven by fuel that
bounds the number of iterations. -/
def timeStepsFrom (intv endT : ℚ) : ℚ → Nat → List ℚ
  | _, 0 => []
  | t, fuel + 1 => if t ≤ endT then t :: timeStepsFrom intv endT (t + intv) fuel else []

/-- `generateTimeSteps` from `TiffLoader.ts` lines 15-25.  In `ℚ` the loop
variable after `k` additions is exactly `start + k*interval`, so
`⌈(end-start)/interval⌉ + 1` iterations suffice.  For `interval ≤ 0` the
source loop does not terminate whenever `start ≤ end` (configs require a
positive interval); that case is mapped to `[]`. -/
def generateTimeSteps (config : AvalancheConfig) : List ℚ :=
  let start := config.timeRange.1
  let endT := config.timeRange.2
  if 0 < config.timeInterval then
    timeStepsFrom config.timeInterval endT start
      (⌈(endT - start) / config.timeInterval⌉.toNat + 1)
  else []

/-- Read `pixels[i]` for an integer index: out of range gives `undefined`,
which behaves like NaN under `value > 0`, hence `none`. -/
def pixelGet (pixels : List (Option ℚ)) (i : ℤ) : Option ℚ :=
  if 0 ≤ i then pixels.getD i.toNat none else none

/-- The coercion of `loadTiffFrame` line 73:
`value > 0 && !isNaN(value) ? value : 0` (NaN already fails `> 0`). -/
def coerceFlow (v : Option ℚ) : ℚ :=
  match v with
  | none => 0
  | some q => if 0 < q then q else 0

/-- The nearest-neighbor sample of destination cell `(x, y)` in
`loadTiffFrame` (`TiffLoader.ts` lines 63-73): floored source pixel index
from normalized coordinates. -/
def resampleCell (pixels : List (Option ℚ)) (width height gridResolution x y : Nat) : ℚ :=
  let normX := (x : ℚ) / ((gridResolution : ℚ) - 1)
  let normY := (y : ℚ) / ((gridResolution : ℚ) - 1)
  let px := ⌊normX * ((width : ℚ) - 1)⌋
  let py := ⌊normY * ((height : ℚ) - 1)⌋
  coerceFlow (pixelGet pixels (py * width + px))

/-- Result of the resampling loop of `loadTiffFrame`: the flow-height grid
and the incrementally tracked `maxHeight` and `nonZeroCount`. -/
structure ResampleResult where
  flowHeights : List ℚ
  maxHeight : ℚ
  nonZeroCount : Nat
deriving DecidableEq

/-- The statistics-tracking resampling loop of `loadTiffFrame`
(`TiffLoader.ts` lines 59-83), folded over the destination cells in
row-major order; the fetch/decode prefix is external I/O and enters only
through `pixels`, `width`, `height`. -/
def loadTiffResample (pixels : List (Option ℚ)) (width height gridResolution : Nat) :
    ResampleResult :=
  let r := (List.range (gridResolution * gridResolution)).foldl
    (fun acc idx =>
      let x := idx % gridResolution
      let y := idx / gridResolution
      let flowHeight := resampleCell pixels width height gridResolution x y
      (acc.1 ++ [flowHeight],
       if 0 < flowHeight ∧ acc.2.1 < flowHeight then flowHeight else acc.2.1,
       if 0 < flowHeight then acc.2.2 + 1 else acc.2.2))
    (([] : List ℚ), (0 : ℚ), (0 : Nat))
  { flowHeights := r.1, maxHeight := r.2.1, nonZeroCount := r.2.2 }

/-- `preloadAllFrames` from `TiffLoader.ts` lines 99-123.  The network
fetch and TIFF decode of one time step are external I/O, abstracted by
`load : time → Option FlowHeightData`, `none` standing for a thrown
fetch/decode error.  Returns the frame cache (insertion order) and the
list of `onProgress(loadedCount, total)` invocations in call order. -/
def preloadAllFrames (config : AvalancheConfig)
    (load : ℚ → Option FlowHeightData) :
    List (ℚ × FlowHeightData) × List (Nat × Nat) :=
  let timeSteps := generateTimeSteps config
  let r := timeSteps.foldl
    (fun acc time =>
      let cache := match load time with
        | some data => acc.1 ++ [(time, data)]
        | none => acc.1
      let loadedCount := acc.2.1 + 1
      (cache, loadedCount, acc.2.2 ++ [(loadedCount, timeSteps.length)]))
    (([] : List (ℚ × FlowHeightData)), (0 : Nat), ([] : List (Nat × Nat)))
  (r.1, r.2.2)

/-- Errors raised by the playback engine and the manager. -/
inductive SimError where
  | noFrames
  | noExtent
  | viewNotSet
  | invalidConfig (id : String)
  | initFailed
deriving DecidableEq

/-- The zero-usable-frames check of `AvalancheSimulation.initialize`
(`AvalancheSimulation.ts` lines 67-69): `if (this.frameCache.size === 0)
throw new Error(...)`. -/
def checkFramesLoaded (frameCache : List (ℚ × FlowHeightData)) : Except SimError Unit :=
  if frameCache.length = 0 then Except.error SimError.noFrames else Except.ok ()

/-- `AnimationState` of `config/types.ts`, owned by one engine. -/
structure AnimationState where
  currentFrameIndex : Nat
  isPlaying : Bool
  playbackSpeed : ℚ
  smoothingFactor : Nat
  flattenPasses : Nat
deriving DecidableEq

/-- Engine events (`AnimationEvent` of `config/types.ts`). -/
inductive AnimationEvent where
  | frameChange (frameIndex : Nat) (totalFrames : Nat) (time : ℚ)
  | playStateChange (isPlaying : Bool)
  | ready
deriving DecidableEq

/-- A mesh `Graphic` held in the engine's mesh cache, with its visibility
flag on the render surface. -/
structure MeshGraphic where
  mesh : Mesh
  visible : Bool
deriving DecidableEq

/-- State of one `AvalancheSimulation` (`AvalancheSimulation.ts` lines
22-52).  `viewSet` models `this.view !== null`; `animationInterval` holds
the period of the live `setInterval` timer, `none` when no timer runs; the
timer's asynchronous tick is external re-entry and not part of a single
operation.  `terrainConfig` and `colorStops` model the global constants
`DEFAULT_TERRAIN_CONFIG` and `COLOR_STOPS` of `config/constants.ts` (a
file not among the sources); both are never written by any operation. -/
structure EngineState where
  viewSet : Bool
  timeSteps : List ℚ
  frameCache : List (ℚ × FlowHeightData)
  meshCache : List (ℚ × MeshGraphic)
  meshExtent : Option ExtentData
  baseGridData : Option GridData
  smoothedGridData : Option GridData
  currentFrameTime : Option ℚ
  state : AnimationState
  animationInterval : Option ℚ
  terrainConfig : TerrainConfig
  colorStops : List ColorStop
deriving DecidableEq

/-- Map-like association lookup on the `ℚ`-keyed caches (JS `Map.get`). -/
def alistGet {α : Type} (m : List (ℚ × α)) (t : ℚ) : Option α :=
  (m.find? (fun e => decide (e.1 = t))).map (fun e => e.2)

/-- Set the visibility of the graphic stored under key `t`
(`graphic.visible = b` after `Map.get`); a missing key changes nothing. -/
def setVis (mc : List (ℚ × MeshGraphic)) (t : ℚ) (b : Bool) : List (ℚ × MeshGraphic) :=
  mc.map (fun e => if e.1 = t then (e.1, { e.2 with visible := b }) else e)

/-- `AvalancheSimulation.displayFrame` (`AvalancheSimulation.ts` lines
191-219): no-op without a view or for an index not in `timeSteps`;
otherwise hide the previous frame's graphic, show the new frame's graphic
(when one exists), update `currentFrameTime` / `currentFrameIndex`, and
emit one `frameChange` event. -/
def displayFrame (s : EngineState) (frameIndex : Nat) : EngineState × List AnimationEvent :=
  if s.viewSet = false then (s, [])
  else
    match s.timeSteps.get? frameIndex with
    | none => (s, [])
    | some time =>
      let mc1 := match s.currentFrameTime with
        | some prevT => setVis s.meshCache prevT false
        | none => s.meshCache
      let mc2 := setVis mc1 time true
      ({ s with meshCache := mc2,
                currentFrameTime := some time,
                state := { s.state with currentFrameIndex := frameIndex } },
       [AnimationEvent.frameChange frameIndex s.timeSteps.length time])

/-- `AvalancheSimulation.play` (`AvalancheSimulation.ts` lines 224-237):
no-op when already playing; otherwise set `isPlaying`, emit a play-state
event, and start the interval timer with period `playbackSpeed`. -/
def play (s : EngineState) : EngineState × List AnimationEvent :=
  if s.state.isPlaying then (s, [])
  else
    ({ s with state := { s.state with isPlaying := true },
              animationInterval := some s.state.playbackSpeed },
     [AnimationEvent.playStateChange true])

/-- `AvalancheSimulation.pause` (`AvalancheSimulation.ts` lines 242-250):
clear `isPlaying`, emit a play-state event, clear the timer if present. -/
def pause (s : EngineState) : EngineState × List AnimationEvent :=
  ({ s with state := { s.state with isPlaying := false },
            animationInterval := none },
   [AnimationEvent.playStateChange false])

/-- `AvalancheSimulation.updateSmoothedGrid` (`AvalancheSimulation.ts`
lines 314-328). -/
def updateSmoothedGrid (s : EngineState) : EngineState :=
  match s.baseGridData with
  | none => s
  | some bg =>
    if 1 < s.state.smoothingFactor then
      { s with smoothedGridData := some (generateSmoothedGrid bg.points bg.elevations
          s.terrainConfig.gridResolution s.state.smoothingFactor) }
    else { s with smoothedGridData := none }

/-- The cache built by the frame loop of `rebuildMeshCache`
(`AvalancheSimulation.ts` lines 110-149): one hidden graphic per time step
whose frame is cached and whose mesh is non-null. -/
def buildCacheList (s : EngineState) (bg : GridData) : List (ℚ × MeshGraphic) :=
  s.timeSteps.filterMap (fun time =>
    match alistGet s.frameCache time with
    | none => none
    | some flowData =>
      match createMesh s.colorStops flowData bg s.smoothedGridData s.terrainConfig
          s.state.smoothingFactor s.state.flattenPasses with
      | none => none
      | some mesh => some (time, { mesh := mesh, visible := false }))

/-- `AvalancheSimulation.rebuildMeshCache` (`AvalancheSimulation.ts` lines
100-150): early return unless view, base grid and extent are present;
otherwise discard every cached graphic and rebuild from the frame cache. -/
def rebuildMeshCache (s : EngineState) : EngineState :=
  match s.viewSet, s.baseGridData, s.meshExtent with
  | true, some bg, some _ => { s with meshCache := buildCacheList s bg }
  | _, _, _ => s

/-- `AvalancheSimulation.setSmoothing` (`AvalancheSimulation.ts` lines
285-290): update the factor, refresh the smoothed grid, rebuild the mesh
cache, redisplay the current frame. -/
def setSmoothing (s : EngineState) (factor : Nat) : EngineState × List AnimationEvent :=
  let s1 := { s with state := { s.state with smoothingFactor := factor } }
  let s2 := updateSmoothedGrid s1
  let s3 := rebuildMeshCache s2
  displayFrame s3 s3.state.currentFrameIndex

/-- `AvalancheSimulation.hide` (`AvalancheSimulation.ts` lines 361-365). -/
def hideAll (s : EngineState) : EngineState :=
  { s with meshCache := s.meshCache.map (fun e => (e.1, { e.2 with visible := false })) }

/-- `AvalancheSimulation.show` (`AvalancheSimulation.ts` lines 370-377). -/
def showCurrent (s : EngineState) : EngineState :=
  match s.currentFrameTime with
  | none => s
  | some t => { s with meshCache := setVis s.meshCache t true }

/-- State of the `SimulationManager` (`SimulationManager.ts` lines 31-37). -/
structure ManagerState where
  viewSet : Bool
  configs : List AvalancheConfig
  simulations : List (String × EngineState)
  activeSimulationId : Option String
  playAllMode : Bool
deriving DecidableEq

/-- JS `Map.get` on the id-keyed engine map. -/
def mgrGet (sims : List (String × EngineState)) (id : String) : Option EngineState :=
  (sims.find? (fun e => e.1 == id)).map (fun e => e.2)

/-- JS `Map.set` on the id-keyed engine map: replace in place, or append. -/
def mgrSet (sims : List (String × EngineState)) (id : String) (v : EngineState) :
    List (String × EngineState) :=
  if sims.any (fun e => e.1 == id) then
    sims.map (fun e => if e.1 == id then (id, v) else e)
  else sims ++ [(id, v)]

/-- The `currentSim.pause(); currentSim.hide()` prologue of
`switchToAvalanche` (`SimulationManager.ts` lines 110-115), applied to the
engine object held in the map (mutation in place). -/
def mgrPauseHideCurrent (m : ManagerState) : ManagerState :=
  match m.activeSimulationId with
  | none => m
  | some aid =>
    match mgrGet m.simulations aid with
    | none => m
    | some cur =>
      { m with simulations := mgrSet m.simulations aid (hideAll (pause cur).1) }

/-- `SimulationManager.loadSimulation` (`SimulationManager.ts` lines
69-97) called with an id.  `new AvalancheSimulation(config)` followed by
`await simulation.initialize(...)` performs network and elevation I/O and
is abstracted by `initOracle`; a thrown error propagates with the map
untouched (the failed engine is never stored). -/
def loadSimulation (initOracle : AvalancheConfig → Except SimError EngineState)
    (m : ManagerState) (id : String) : ManagerState × Except SimError (String × EngineState) :=
  if m.viewSet = false then (m, Except.error SimError.viewNotSet)
  else
    match m.configs.find? (fun c => c.id == id) with
    | none => (m, Except.error (SimError.invalidConfig id))
    | some config =>
      match mgrGet m.simulations config.id with
      | some sim => (m, Except.ok (config.id, sim))
      | none =>
        match initOracle config with
        | Except.error e => (m, Except.error e)
        | Except.ok sim =>
          ({ m with simulations := mgrSet m.simulations config.id sim },
           Except.ok (config.id, sim))

/-- `SimulationManager.switchToAvalanche` (`SimulationManager.ts` lines
102-134): check the view, pause and hide the current simulation, load the
target (errors propagate), then show it, display its frame 0 and mark it
active.  The camera flight and the `avalancheChange` event carry no
manager state. -/
def switchToAvalanche (initOracle : AvalancheConfig → Except SimError EngineState)
    (m : ManagerState) (id : String) : ManagerState × Except SimError Unit :=
  if m.viewSet = false then (m, Except.error SimError.viewNotSet)
  else
    let m1 := mgrPauseHideCurrent m
    match loadSimulation initOracle m1 id with
    | (m2, Except.error e) => (m2, Except.error e)
    | (m2, Except.ok (sid, sim)) =>
      let simShown := (displayFrame (showCurrent sim) 0).1
      ({ m2 with simulations := mgrSet m2.simulations sid simShown,
                 activeSimulationId := some id },
       Except.ok ())

/-! Helper lemmas on row-major grids. -/

lemma getD_map_range {α : Type} (f : Nat → α) (n idx : Nat) (d : α) (h : idx < n) :
    ((List.range n).map f).getD idx d = f idx := by
  rw [List.getD_eq_getElem?_getD, List.getElem?_map, List.getElem?_range h]
  rfl

lemma getD_map_range_ge {α : Type} (f : Nat → α) (n idx : Nat) (d : α) (h : n ≤ idx) :
    ((List.range n).map f).getD idx d = d := by
  apply List.getD_eq_default
  simpa using h

lemma rowmajor_toNat (a b res : Nat) :
    ((a : ℤ) * (res : ℤ) + (b : ℤ)).toNat = a * res + b := by
  have h1 : ((a : ℤ) * (res : ℤ) + (b : ℤ)) = ((a * res + b : ℕ) : ℤ) := by push_cast; ring
  rw [h1, Int.toNat_natCast]

lemma smoothCell_center_zero (g : List ℚ) (res idx : Nat)
    (h : g.getD idx 0 = 0) :
    smoothCell g res ((idx % res : ℕ) : ℤ) ((idx / res : ℕ) : ℤ) = 0 := by
  have hidx : idx / res * res + idx % res = idx := by
    rw [Nat.mul_comm]; exact Nat.div_add_mod idx res
  unfold smoothCell
  have hget : gridGet g ((idx / res : ℕ) * (res : ℤ) + (idx % res : ℕ)) = g.getD idx 0 := by
    unfold gridGet
    rw [if_pos (by positivity), rowmajor_toNat, hidx]
  simp only [hget, h, if_pos rfl]
  simp

lemma smoothOnePass_zero (g : List ℚ) (res idx : Nat) (h : g.getD idx 0 = 0) :
    (smoothOnePass g res).getD idx 0 = 0 := by
  unfold smoothOnePass
  by_cases hlt : idx < res * res
  · rw [getD_map_range _ _ _ _ hlt]
    exact smoothCell_center_zero g res idx h
  · exact getD_map_range_ge _ _ _ _ (Nat.le_of_not_lt hlt)

lemma applyGaussianSmooth_zero (res passes : Nat) :
    ∀ g idx, g.getD idx 0 = 0 → (applyGaussianSmooth g res passes).getD idx 0 = 0 := by
  induction passes with
  | zero => intro g idx h; exact h
  | succ p ih =>
    intro g idx h
    exact ih (smoothOnePass g res) idx (smoothOnePass_zero g res idx h)

/-- C2: `applyGaussianSmooth` with `passes = 0` is the identity, and a cell
whose value is exactly 0 in the input is 0 in the output after any number
of passes — smoothing never gives height to avalanche-free cells. -/
theorem smooth_identity_and_zero_preservation (g : List ℚ) (res passes : Nat) :
    applyGaussianSmooth g res 0 = g ∧
    ∀ idx, g.getD idx 0 = 0 → (applyGaussianSmooth g res passes).getD idx 0 = 0 :=
  ⟨rfl, fun idx h => applyGaussianSmooth_zero res passes g idx h⟩

/-- Witness for C2 at a concrete grid: one pass of a 2×2 grid keeps the
zero cells at 0. -/
theorem smooth_identity_and_zero_preservation_witness :
    applyGaussianSmooth [(1 : ℚ), 0, 0, 2] 2 0 = [(1 : ℚ), 0, 0, 2] ∧
    (applyGaussianSmooth [(1 : ℚ), 0, 0, 2] 2 3).getD 1 0 = 0 :=
  ⟨(smooth_identity_and_zero_preservation [(1 : ℚ), 0, 0, 2] 2 0).1,
   (smooth_identity_and_zero_preservation [(1 : ℚ), 0, 0, 2] 2 3).2 1 (by decide)⟩

/-! Lemmas for the color-stop lookup. -/

lemma getLastD_mem {α : Type} (l : List α) (d : α) (h : l ≠ []) : l.getLastD d ∈ l := by
  induction l generalizing d with
  | nil => exact absurd rfl h
  | cons a l ih =>
    rw [List.getLastD_cons]
    cases l with
    | nil => simp [List.getLastD]
    | cons b lb => exact List.mem_cons_of_mem a (ih a (by simp))

lemma chain_lt_getLastD :
    ∀ (l : List ColorStop) (a : ColorStop),
      List.Chain' (fun p q => p.value < q.value) (a :: l) → l ≠ [] →
      a.value < (l.getLastD a).value := by
  intro l
  induction l with
  | nil => intro a _ h; exact absurd rfl h
  | cons b lb ih =>
    intro a hchain _
    rw [List.getLastD_cons]
    have hab : a.value < b.value := List.chain'_cons.mp hchain |>.1
    cases lb with
    | nil => simpa [List.getLastD] using hab
    | cons c lc =>
      exact lt_trans hab (ih b (List.chain'_cons.mp hchain).2 (by simp))

lemma colorScan_bracket (value : ℚ) (lastC : RGBA) :
    ∀ (rest : List ColorStop) (prev : ColorStop),
      List.Chain' (fun p q => p.value < q.value) (prev :: rest) →
      prev.value < value →
      (∃ c ∈ rest, value ≤ c.value) →
      ∃ n p c, (prev :: rest).get? n = some p ∧ (prev :: rest).get? (n + 1) = some c ∧
        p.value < value ∧ value ≤ c.value ∧
        colorScan value prev rest lastC = lerpColor p c value := by
  intro rest
  induction rest with
  | nil =>
    intro prev _ _ hex
    simp at hex
  | cons curr rest' ih =>
    intro prev hchain hprev hex
    by_cases hc : value ≤ curr.value
    · exact ⟨0, prev, curr, rfl, rfl, hprev, hc, by simp [colorScan, hc]⟩
    · push_neg at hc
      obtain ⟨c, hcmem, hcval⟩ := hex
      have hcmem' : c ∈ rest' := by
        rcases List.mem_cons.mp hcmem with rfl | hmem
        · exact absurd hcval (not_le.mpr hc)
        · exact hmem
      obtain ⟨n, p, c', h1, h2, h3, h4, h5⟩ :=
        ih curr (List.chain'_cons.mp hchain).2 hc ⟨c, hcmem', hcval⟩
      refine ⟨n + 1, p, c', by simpa using h1, by simpa using h2, h3, h4, ?_⟩
      rw [show colorScan value prev (curr :: rest') lastC
            = colorScan value curr rest' lastC from by simp [colorScan, not_le.mpr hc]]
      exact h5

/-- C5: for a non-empty strictly-increasing color-stop list,
`getColorFromHeight` clamps at-or-below the first stop to the first color,
at-or-above the last stop to the last color, and otherwise interpolates
between the bracketing pair `(prev, curr)` with `prev.value < value ≤
curr.value`, each channel linear in `t = (value - prev.value) /
(curr.value - prev.value)` and rounded to the nearest integer. -/
theorem colorFor_clamps_and_interpolates (s0 : ColorStop) (rest : List ColorStop) (value : ℚ)
    (hsorted : List.Chain' (fun p q => p.value < q.value) (s0 :: rest)) :
    (value ≤ s0.value → getColorFromHeight value (s0 :: rest) = s0.color) ∧
    (((s0 :: rest).getLastD s0).value ≤ value →
      getColorFromHeight value (s0 :: rest) = ((s0 :: rest).getLastD s0).color) ∧
    (s0.value < value → value < ((s0 :: rest).getLastD s0).value →
      ∃ n prev curr, (s0 :: rest).get? n = some prev ∧ (s0 :: rest).get? (n + 1) = some curr ∧
        prev.value < value ∧ value ≤ curr.value ∧
        getColorFromHeight value (s0 :: rest) = lerpColor prev curr value) := by
  refine ⟨fun h0 => by simp [getColorFromHeight, h0], ?_, ?_⟩
  · intro hlast
    by_cases h0 : value ≤ s0.value
    · cases rest with
      | nil => simp [getColorFromHeight, h0, List.getLastD_cons, List.getLastD]
      | cons r rs =>
        have hlt : s0.value < ((s0 :: r :: rs).getLastD s0).value := by
          rw [List.getLastD_cons]
          exact chain_lt_getLastD (r :: rs) s0 hsorted (by simp)
        exact absurd (lt_of_lt_of_le hlt hlast) (not_lt.mpr h0)
    · simp only [getColorFromHeight]
      rw [if_neg h0, if_pos hlast]
  · intro h0 hlt
    cases rest with
    | nil =>
      rw [show (s0 :: ([] : List ColorStop)).getLastD s0 = s0 from rfl] at hlt
      exact absurd hlt (not_lt.mpr (le_of_lt h0))
    | cons r rs =>
      have hlastmem : ((s0 :: r :: rs).getLastD s0) ∈ r :: rs := by
        rw [List.getLastD_cons]
        exact getLastD_mem (r :: rs) s0 (by simp)
      obtain ⟨n, p, c, h1, h2, h3, h4, h5⟩ :=
        colorScan_bracket value ((s0 :: r :: rs).getLastD s0).color (r :: rs) s0 hsorted h0
          ⟨(s0 :: r :: rs).getLastD s0, hlastmem, le_of_lt hlt⟩
      refine ⟨n, p, c, h1, h2, h3, h4, ?_⟩
      rw [show getColorFromHeight value (s0 :: r :: rs)
            = colorScan value s0 (r :: rs) ((s0 :: r :: rs).getLastD s0).color from by
        simp only [getColorFromHeight]
        rw [if_neg (not_le.mpr h0), if_neg (not_le.mpr hlt)]]
      exact h5

/-- Witness for C5 on the two-stop list `[(0, blue), (2, gray)]`: clamping
below, clamping above, and interpolation at `value = 1`. -/
theorem colorFor_clamps_and_interpolates_witness :
    (getColorFromHeight (-1) [⟨0, (0, 0, 255, 255)⟩, ⟨2, (100, 200, 50, 255)⟩]
      = (0, 0, 255, 255)) ∧
    (getColorFromHeight 5 [⟨0, (0, 0, 255, 255)⟩, ⟨2, (100, 200, 50, 255)⟩]
      = (100, 200, 50, 255)) ∧
    ∃ n prev curr,
      ([⟨0, (0, 0, 255, 255)⟩, ⟨2, (100, 200, 50, 255)⟩] : List ColorStop).get? n = some prev ∧
      ([⟨0, (0, 0, 255, 255)⟩, ⟨2, (100, 200, 50, 255)⟩] : List ColorStop).get? (n + 1) = some curr ∧
      prev.value < 1 ∧ (1 : ℚ) ≤ curr.value ∧
      getColorFromHeight 1 [⟨0, (0, 0, 255, 255)⟩, ⟨2, (100, 200, 50, 255)⟩]
        = lerpColor prev curr 1 := by
  have hlo := colorFor_clamps_and_interpolates ⟨0, (0, 0, 255, 255)⟩
    [⟨2, (100, 200, 50, 255)⟩] (-1) (by simp)
  have hhi := colorFor_clamps_and_interpolates ⟨0, (0, 0, 255, 255)⟩
    [⟨2, (100, 200, 50, 255)⟩] 5 (by simp)
  have hmid := colorFor_clamps_and_interpolates ⟨0, (0, 0, 255, 255)⟩
    [⟨2, (100, 200, 50, 255)⟩] 1 (by simp)
  exact ⟨hlo.1 (by decide), hhi.2.1 (by decide), hmid.2.2 (by decide) (by decide)⟩

/-! Lemmas for the sequential frame preload. -/

lemma preload_foldl (load : ℚ → Option FlowHeightData) (total : Nat) :
    ∀ (ts : List ℚ) (cache : List (ℚ × FlowHeightData)) (cnt : Nat) (prog : List (Nat × Nat)),
      ts.foldl
        (fun acc time =>
          let cache := match load time with
            | some data => acc.1 ++ [(time, data)]
            | none => acc.1
          let loadedCount := acc.2.1 + 1
          (cache, loadedCount, acc.2.2 ++ [(loadedCount, total)]))
        (cache, cnt, prog)
      = (cache ++ ts.filterMap (fun t => (load t).map (fun d => (t, d))),
         cnt + ts.length,
         prog ++ (List.range ts.length).map (fun i => (cnt + i + 1, total))) := by
  intro ts
  induction ts with
  | nil => intro cache cnt prog; simp
  | cons t ts' ih =>
    intro cache cnt prog
    rw [List.foldl_cons]
    simp only []
    rw [ih]
    have hprog : prog ++ [(cnt + 1, total)]
          ++ List.map (fun i => (cnt + 1 + i + 1, total)) (List.range ts'.length)
        = prog ++ List.map (fun i => (cnt + i + 1, total)) (List.range (ts'.length + 1)) := by
      rw [List.range_succ_eq_map, List.map_cons, List.map_map, List.append_assoc,
        List.singleton_append]
      refine congrArg _ (congrArg _ (List.map_congr_left fun i _ => ?_))
      simp only [Function.comp_apply, Prod.mk.injEq]
      exact ⟨by omega, trivial⟩
    cases h : load t with
    | none =>
      simp only [h, List.filterMap_cons, Prod.mk.injEq, List.length_cons]
      exact ⟨rfl, by omega, hprog⟩
    | some d =>
      simp only [h, List.filterMap_cons, Prod.mk.injEq, List.length_cons, Option.map_some']
      refine ⟨?_, by omega, hprog⟩
      rw [List.append_assoc, List.singleton_append]
    
/-- Characterization of `preloadAllFrames`: the cache keeps exactly the
successfully loaded steps in order, and progress is reported once per step. -/
lemma preload_eq (config : AvalancheConfig) (load : ℚ → Option FlowHeightData) :
    preloadAllFrames config load
      = ((generateTimeSteps config).filterMap (fun t => (load t).map (fun d => (t, d))),
         (List.range (generateTimeSteps config).length).map
           (fun i => (i + 1, (generateTimeSteps config).length))) := by
  simp only [preloadAllFrames]
  rw [preload_foldl load (generateTimeSteps config).length (generateTimeSteps config) [] 0 []]
  simp

/-- The spec scenario config `{timeRange: [0,4], timeInterval: 2}` yields
time steps `[0, 2, 4]`. -/
lemma timeSteps_scenario : generateTimeSteps ⟨"ex", 2, (0, 4)⟩ = [0, 2, 4] := by
  have h2 : ⌈(((4 : ℚ) - 0) / 2)⌉ = 2 := by norm_num
  unfold generateTimeSteps
  dsimp only
  rw [if_pos (by norm_num), h2, show Int.toNat 2 + 1 = 3 from rfl]
  rw [show (3 : ℕ) = 2 + 1 from rfl, timeStepsFrom, if_pos (by norm_num)]
  rw [show (2 : ℕ) = 1 + 1 from rfl, timeStepsFrom, if_pos (by norm_num)]
  rw [show (1 : ℕ) = 0 + 1 from rfl, timeStepsFrom, if_pos (by norm_num)]
  norm_num [timeStepsFrom]

/-- C3: `preloadAllFrames` caches exactly the time steps whose load
succeeds, in order, reports progress `(1, n), …, (n, n)` — once per attempt,
success or failure — and the initializer's frame check fails with the
no-frames error exactly when that cache is empty.  The final conjuncts run
the spec's scenario: time range `[0, 4]` with interval 2 gives steps
`[0, 2, 4]`; one failing step leaves a 2-entry cache and 3 progress calls. -/
theorem preload_reports_and_skips (config : AvalancheConfig)
    (load : ℚ → Option FlowHeightData) :
    (preloadAllFrames config load).1
      = (generateTimeSteps config).filterMap (fun t => (load t).map (fun d => (t, d))) ∧
    (preloadAllFrames config load).2
      = (List.range (generateTimeSteps config).length).map
          (fun i => (i + 1, (generateTimeSteps config).length)) ∧
    (checkFramesLoaded (preloadAllFrames config load).1 = Except.error SimError.noFrames
      ↔ (preloadAllFrames config load).1 = []) ∧
    generateTimeSteps ⟨"ex", 2, (0, 4)⟩ = [0, 2, 4] ∧
    (preloadAllFrames ⟨"ex", 2, (0, 4)⟩
      (fun t => if t = 2 then none
                else some ⟨[], ⟨0, 0, 0, 0, 0⟩, 0, 0, 0, 0⟩)).1.length = 2 ∧
    (preloadAllFrames ⟨"ex", 2, (0, 4)⟩
      (fun t => if t = 2 then none
                else some ⟨[], ⟨0, 0, 0, 0, 0⟩, 0, 0, 0, 0⟩)).2 = [(1, 3), (2, 3), (3, 3)] := by
  refine ⟨by rw [preload_eq], by rw [preload_eq], ?_, timeSteps_scenario, ?_, ?_⟩
  · unfold checkFramesLoaded
    constructor
    · intro h
      by_contra hne
      rw [if_neg (fun hlen => hne (List.eq_nil_of_length_eq_zero hlen))] at h
      exact Except.noConfusion h
    · intro h
      rw [h]
      rfl
  · rw [preload_eq, timeSteps_scenario]
    norm_num [List.filterMap_cons]
  · rw [preload_eq, timeSteps_scenario]
    decide

/-- C7: `play` on an engine that is already playing is a no-op — same
state, no event, no second timer — and `pause` is idempotent on the state:
one call stops the timer, clears `isPlaying` and emits exactly one
play-state event, and a second call yields the same state. -/
theorem play_noop_pause_idempotent (s : EngineState) :
    (s.state.isPlaying = true → play s = (s, [])) ∧
    (pause (pause s).1).1 = (pause s).1 ∧
    (pause s).1.state.isPlaying = false ∧
    (pause s).1.animationInterval = none ∧
    (pause s).2 = [AnimationEvent.playStateChange false] := by
  refine ⟨fun h => by simp [play, h], ?_, rfl, rfl, rfl⟩
  simp [pause]

/-- Witness for C7 on a concrete playing engine. -/
theorem play_noop_pause_idempotent_witness :
    play ⟨true, [0], [], [], none, none, none, none, ⟨0, true, 5, 1, 0⟩, some 5, ⟨1, 2⟩, []⟩
      = (⟨true, [0], [], [], none, none, none, none, ⟨0, true, 5, 1, 0⟩, some 5, ⟨1, 2⟩, []⟩, []) ∧
    (pause (pause ⟨true, [0], [], [], none, none, none, none,
        ⟨0, true, 5, 1, 0⟩, some 5, ⟨1, 2⟩, []⟩).1).1
      = (pause ⟨true, [0], [], [], none, none, none, none,
          ⟨0, true, 5, 1, 0⟩, some 5, ⟨1, 2⟩, []⟩).1 :=
  ⟨(play_noop_pause_idempotent _).1 rfl, (play_noop_pause_idempotent _).2.1⟩

/-- Entry-level view of `setVis`: position `j` of the updated cache holds
the original entry, with visibility set when its key matches. -/
lemma setVis_get? (mc : List (ℚ × MeshGraphic)) (t : ℚ) (b : Bool) (j : Nat)
    (e : ℚ × MeshGraphic) (he : mc.get? j = some e) :
    (setVis mc t b).get? j
      = some (if e.1 = t then (e.1, { e.2 with visible := b }) else e) := by
  rw [List.get?_eq_getElem?] at he ⊢
  rw [setVis, List.getElem?_map, he]
  rfl

/-- C4: with a view attached, `displayFrame` with an index outside the
time-step list is a no-op with no event; with an in-range index it emits
exactly one `frameChange` event carrying that index's nominal time, sets
`currentFrameIndex` and `currentFrameTime`, and pointwise over the mesh
cache shows the mesh keyed by the new time, hides the mesh keyed by the
previously current time, and leaves every other visibility unchanged. -/
theorem displayFrame_spec (s : EngineState) (i : Nat) (hview : s.viewSet = true) :
    (s.timeSteps.get? i = none → displayFrame s i = (s, [])) ∧
    (∀ t, s.timeSteps.get? i = some t →
      (displayFrame s i).2 = [AnimationEvent.frameChange i s.timeSteps.length t] ∧
      (displayFrame s i).1.state.currentFrameIndex = i ∧
      (displayFrame s i).1.currentFrameTime = some t ∧
      (displayFrame s i).1.meshCache.length = s.meshCache.length ∧
      (∀ j e e', s.meshCache.get? j = some e →
        (displayFrame s i).1.meshCache.get? j = some e' →
        e.1 = e'.1 ∧ e'.2.mesh = e.2.mesh ∧
        e'.2.visible = (if e.1 = t then true
                        else if s.currentFrameTime = some e.1 then false
                        else e.2.visible))) := by
  constructor
  · intro hnone
    rw [List.get?_eq_getElem?] at hnone
    simp [displayFrame, hview, hnone]
  · intro t ht
    rw [List.get?_eq_getElem?] at ht
    have hd : displayFrame s i =
        ({ s with
            meshCache := setVis (match s.currentFrameTime with
              | some prevT => setVis s.meshCache prevT false
              | none => s.meshCache) t true,
            currentFrameTime := some t,
            state := { s.state with currentFrameIndex := i } },
         [AnimationEvent.frameChange i s.timeSteps.length t]) := by
      simp [displayFrame, hview, ht]
    refine ⟨by rw [hd], by rw [hd], by rw [hd], ?_, ?_⟩
    · rw [hd]
      cases s.currentFrameTime <;> simp [setVis]
    · intro j e e' he he'
      rw [hd] at he'
      simp only at he'
      cases hc : s.currentFrameTime with
      | none =>
        rw [hc] at he'
        rw [setVis_get? s.meshCache t true j e he] at he'
        obtain rfl := (Option.some.inj he').symm
        by_cases hkey : e.1 = t <;> simp [hkey, hc]
      | some prevT =>
        rw [hc] at he'
        have h1 := setVis_get? s.meshCache prevT false j e he
        rw [setVis_get? (setVis s.meshCache prevT false) t true j _ h1] at he'
        obtain rfl := (Option.some.inj he').symm
        by_cases hprev : e.1 = prevT
        · subst hprev
          by_cases hkey : e.1 = t
          · subst hkey
            simp [hc]
          · simp [hkey, hc]
        · by_cases hkey : e.1 = t
          · subst hkey
            simp [hprev, hc, Ne.symm hprev]
          · simp [hkey, hprev, hc, Ne.symm hprev]

/-- A concrete mesh value for witnesses. -/
def exMesh : Mesh := { flatPositions := [], flatColors := [], flatFaces := [], wkid := 0 }

/-- A concrete engine used by witnesses: two time steps, frame 1 current
and visible. -/
def exEngine : EngineState :=
  { viewSet := true
    timeSteps := [0, 2]
    frameCache := []
    meshCache := [(0, { mesh := exMesh, visible := false }),
                  (2, { mesh := exMesh, visible := true })]
    meshExtent := none
    baseGridData := none
    smoothedGridData := none
    currentFrameTime := some 2
    state := { currentFrameIndex := 1, isPlaying := false, playbackSpeed := 5,
               smoothingFactor := 1, flattenPasses := 0 }
    animationInterval := none
    terrainConfig := { exaggerationFactor := 1, gridResolution := 2 }
    colorStops := [] }

/-- Witness for C4: out-of-range index 5 is a no-op; index 0 emits one
`frameChange` event with time 0 and updates the current index. -/
theorem displayFrame_spec_witness :
    displayFrame exEngine 5 = (exEngine, []) ∧
    (displayFrame exEngine 0).2 = [AnimationEvent.frameChange 0 2 0] ∧
    (displayFrame exEngine 0).1.state.currentFrameIndex = 0 ∧
    (displayFrame exEngine 0).1.currentFrameTime = some 0 :=
  ⟨(displayFrame_spec exEngine 5 rfl).1 rfl,
   ((displayFrame_spec exEngine 0 rfl).2 0 rfl).1,
   ((displayFrame_spec exEngine 0 rfl).2 0 rfl).2.1,
   ((displayFrame_spec exEngine 0 rfl).2 0 rfl).2.2.1⟩

/-! Lemmas for the triangle-culling invariant of `createMesh`. -/

lemma cellTris_pos (h : List ℚ) (res x y : Nat) (tri : Nat × Nat × Nat)
    (hm : tri ∈ cellTris h res x y) :
    0 < h.getD tri.1 0 ∨ 0 < h.getD tri.2.1 0 ∨ 0 < h.getD tri.2.2 0 := by
  unfold cellTris at hm
  simp only [] at hm
  rcases List.mem_append.mp hm with h1 | h2
  · split_ifs at h1 with hc
    · simp only [List.mem_singleton] at h1
      subst h1
      simpa using hc
    · simp at h1
  · split_ifs at h2 with hc
    · simp only [List.mem_singleton] at h2
      subst h2
      simpa using hc
    · simp at h2

lemma meshTriIndices_pos (h : List ℚ) (res : Nat) (tri : Nat × Nat × Nat)
    (hm : tri ∈ meshTriIndices h res) :
    0 < h.getD tri.1 0 ∨ 0 < h.getD tri.2.1 0 ∨ 0 < h.getD tri.2.2 0 := by
  unfold meshTriIndices at hm
  simp only [List.mem_flatMap] at hm
  obtain ⟨y, _, x, _, hcell⟩ := hm
  exact cellTris_pos h res x y tri hcell

/-- C1: `createMesh` returns `none` for a grid whose `nonZeroCount` is 0;
every triangle index triple it emits has at least one corner with positive
flow height in the grid it triangulates; and it returns `none` when the
culling leaves zero triangles. -/
theorem createMesh_absent_and_culling (stops : List ColorStop) (flowData : FlowHeightData)
    (gridData : GridData) (sgd : Option GridData) (tc : TerrainConfig) (sf fp : Nat) :
    (flowData.nonZeroCount = 0 →
      createMesh stops flowData gridData sgd tc sf fp = none) ∧
    (∀ tri ∈ meshTriIndices
        (effFlowHeights flowData.flowHeights tc.gridResolution sf fp sgd)
        (effResolution tc.gridResolution sf sgd),
      0 < (effFlowHeights flowData.flowHeights tc.gridResolution sf fp sgd).getD tri.1 0 ∨
      0 < (effFlowHeights flowData.flowHeights tc.gridResolution sf fp sgd).getD tri.2.1 0 ∨
      0 < (effFlowHeights flowData.flowHeights tc.gridResolution sf fp sgd).getD tri.2.2 0) ∧
    (meshTriIndices (effFlowHeights flowData.flowHeights tc.gridResolution sf fp sgd)
        (effResolution tc.gridResolution sf sgd) = [] →
      createMesh stops flowData gridData sgd tc sf fp = none) := by
  refine ⟨fun h => by simp [createMesh, h], ?_, ?_⟩
  · intro tri hm
    exact meshTriIndices_pos _ _ tri hm
  · intro htris
    by_cases hnz : flowData.nonZeroCount = 0
    · simp [createMesh, hnz]
    · simp [createMesh, hnz, htris]

/-- Witness for C1: an all-zero 2×2 grid is absent; a grid with one
positive corner keeps that corner in its first triangle; a grid with
positive `nonZeroCount` but zero heights triangulates to nothing and is
absent. -/
theorem createMesh_absent_and_culling_witness :
    createMesh [] ⟨[0, 0, 0, 0], ⟨0, 0, 0, 0, 0⟩, 2, 2, 0, 0⟩ ⟨[], []⟩ none ⟨1, 2⟩ 1 0 = none ∧
    (0 < (effFlowHeights [1, 0, 0, 0] 2 1 0 none).getD 0 0 ∨
     0 < (effFlowHeights [1, 0, 0, 0] 2 1 0 none).getD 1 0 ∨
     0 < (effFlowHeights [1, 0, 0, 0] 2 1 0 none).getD 2 0) ∧
    createMesh [] ⟨[0, 0, 0, 0], ⟨0, 0, 0, 0, 0⟩, 2, 2, 0, 1⟩ ⟨[], []⟩ none ⟨1, 2⟩ 1 0 = none :=
  ⟨(createMesh_absent_and_culling [] ⟨[0, 0, 0, 0], ⟨0, 0, 0, 0, 0⟩, 2, 2, 0, 0⟩
      ⟨[], []⟩ none ⟨1, 2⟩ 1 0).1 rfl,
   (createMesh_absent_and_culling [] ⟨[1, 0, 0, 0], ⟨0, 0, 0, 0, 0⟩, 2, 2, 1, 1⟩
      ⟨[], []⟩ none ⟨1, 2⟩ 1 0).2.1 (0, 1, 2) (by decide),
   (createMesh_absent_and_culling [] ⟨[0, 0, 0, 0], ⟨0, 0, 0, 0, 0⟩, 2, 2, 0, 1⟩
      ⟨[], []⟩ none ⟨1, 2⟩ 1 0).2.2 (by decide)⟩

/-! Bounds preservation of the Gaussian smoothing. -/

/-- Maximum entry of a non-negative grid (0 for the empty grid). -/
def gridMax (g : List ℚ) : ℚ := g.foldr max 0

lemma le_gridMax (g : List ℚ) (v : ℚ) (hv : v ∈ g) : v ≤ gridMax g := by
  induction g with
  | nil => cases hv
  | cons a l ih =>
    rcases List.mem_cons.mp hv with rfl | hmem
    · exact le_max_left _ _
    · exact le_trans (ih hmem) (le_max_right _ _)

lemma gridMax_nonneg (g : List ℚ) : 0 ≤ gridMax g := by
  induction g with
  | nil => exact le_refl 0
  | cons a l ih => exact le_trans ih (le_max_right _ _)

lemma getD_bound (g : List ℚ) (M : ℚ) (hM : 0 ≤ M)
    (hb : ∀ v ∈ g, 0 ≤ v ∧ v ≤ M) (i : Nat) :
    0 ≤ g.getD i 0 ∧ g.getD i 0 ≤ M := by
  rw [List.getD_eq_getElem?_getD]
  cases hg : g[i]? with
  | none => exact ⟨le_refl 0, hM⟩
  | some v =>
    have hmem : v ∈ g := by
      obtain ⟨hlt, hvv⟩ := List.getElem?_eq_some.mp hg
      exact hvv ▸ List.getElem_mem hlt
    exact hb v hmem

lemma gridGet_bound (g : List ℚ) (M : ℚ) (hM : 0 ≤ M)
    (hb : ∀ v ∈ g, 0 ≤ v ∧ v ≤ M) (i : ℤ) :
    0 ≤ gridGet g i ∧ gridGet g i ≤ M := by
  unfold gridGet
  split_ifs
  · exact getD_bound g M hM hb _
  · exact ⟨le_refl 0, hM⟩

lemma gaussWeight_pos (dy dx : ℤ) : 0 < gaussWeight dy dx := by
  unfold gaussWeight
  split_ifs <;> norm_num

lemma neighborTerm_bound (g : List ℚ) (res : Nat) (x y dy dx : ℤ) (M : ℚ) (hM : 0 ≤ M)
    (hb : ∀ v ∈ g, 0 ≤ v ∧ v ≤ M) :
    0 ≤ (neighborTerm g res x y dy dx).1 ∧
    0 ≤ (neighborTerm g res x y dy dx).2 ∧
    (neighborTerm g res x y dy dx).1 ≤ (neighborTerm g res x y dy dx).2 * M := by
  unfold neighborTerm
  simp only []
  split_ifs with hin hpos
  · have hw := gaussWeight_pos dy dx
    have hval := gridGet_bound g M hM hb ((y + dy) * res + (x + dx))
    refine ⟨mul_nonneg hval.1 (le_of_lt hw), le_of_lt hw, ?_⟩
    calc gridGet g ((y + dy) * res + (x + dx)) * gaussWeight dy dx
        ≤ M * gaussWeight dy dx := mul_le_mul_of_nonneg_right hval.2 (le_of_lt hw)
      _ = gaussWeight dy dx * M := mul_comm _ _
  · exact ⟨le_refl 0, le_refl 0, by simp⟩
  · exact ⟨le_refl 0, le_refl 0, by simp⟩

lemma kernel_fold_bound (g : List ℚ) (res : Nat) (x y : ℤ) (M : ℚ) (hM : 0 ≤ M)
    (hb : ∀ v ∈ g, 0 ≤ v ∧ v ≤ M) :
    ∀ (l : List (ℤ × ℤ)) (S W : ℚ), 0 ≤ S → 0 ≤ W → S ≤ W * M →
      0 ≤ (l.foldl (fun acc d =>
            let t := neighborTerm g res x y d.1 d.2
            (acc.1 + t.1, acc.2 + t.2)) (S, W)).1 ∧
      0 ≤ (l.foldl (fun acc d =>
            let t := neighborTerm g res x y d.1 d.2
            (acc.1 + t.1, acc.2 + t.2)) (S, W)).2 ∧
      (l.foldl (fun acc d =>
            let t := neighborTerm g res x y d.1 d.2
            (acc.1 + t.1, acc.2 + t.2)) (S, W)).1
        ≤ (l.foldl (fun acc d =>
            let t := neighborTerm g res x y d.1 d.2
            (acc.1 + t.1, acc.2 + t.2)) (S, W)).2 * M := by
  intro l
  induction l with
  | nil => intro S W hS hW hSW; exact ⟨hS, hW, hSW⟩
  | cons d l ih =>
    intro S W hS hW hSW
    rw [List.foldl_cons]
    have hterm := neighborTerm_bound g res x y d.1 d.2 M hM hb
    refine ih _ _ (add_nonneg hS hterm.1) (add_nonneg hW hterm.2.1) ?_
    calc S + (neighborTerm g res x y d.1 d.2).1
        ≤ W * M + (neighborTerm g res x y d.1 d.2).2 * M :=
          add_le_add hSW hterm.2.2
      _ = (W + (neighborTerm g res x y d.1 d.2).2) * M := (add_mul _ _ _).symm

lemma smoothCell_bound (g : List ℚ) (res : Nat) (x y : ℤ) (M : ℚ) (hM : 0 ≤ M)
    (hb : ∀ v ∈ g, 0 ≤ v ∧ v ≤ M) :
    0 ≤ smoothCell g res x y ∧ smoothCell g res x y ≤ M := by
  unfold smoothCell
  simp only []
  have hcenter := gridGet_bound g M hM hb (y * res + x)
  split_ifs with hz hw
  · exact ⟨le_refl 0, hM⟩
  · have hacc := kernel_fold_bound g res x y M hM hb kernelOffsets 0 0
      (le_refl 0) (le_refl 0) (by simp)
    constructor
    · exact div_nonneg hacc.1 (le_of_lt hw)
    · rw [div_le_iff₀ hw]
      calc (kernelOffsets.foldl (fun acc d =>
              let t := neighborTerm g res x y d.1 d.2
              (acc.1 + t.1, acc.2 + t.2)) (0, 0)).1
          ≤ (kernelOffsets.foldl (fun acc d =>
              let t := neighborTerm g res x y d.1 d.2
              (acc.1 + t.1, acc.2 + t.2)) (0, 0)).2 * M := hacc.2.2
        _ = M * (kernelOffsets.foldl (fun acc d =>
              let t := neighborTerm g res x y d.1 d.2
              (acc.1 + t.1, acc.2 + t.2)) (0, 0)).2 := mul_comm _ _
  · exact hcenter

lemma smoothOnePass_bound (g : List ℚ) (res : Nat) (M : ℚ) (hM : 0 ≤ M)
    (hb : ∀ v ∈ g, 0 ≤ v ∧ v ≤ M) :
    ∀ v ∈ smoothOnePass g res, 0 ≤ v ∧ v ≤ M := by
  intro v hv
  unfold smoothOnePass at hv
  obtain ⟨idx, _, rfl⟩ := List.mem_map.mp hv
  exact smoothCell_bound g res _ _ M hM hb

lemma applyGaussianSmooth_bound (res : Nat) (M : ℚ) (hM : 0 ≤ M) :
    ∀ (passes : Nat) (g : List ℚ), (∀ v ∈ g, 0 ≤ v ∧ v ≤ M) →
      ∀ v ∈ applyGaussianSmooth g res passes, 0 ≤ v ∧ v ≤ M := by
  intro passes
  induction passes with
  | zero => intro g hb v hv; exact hb v hv
  | succ p ih =>
    intro g hb v hv
    exact ih (smoothOnePass g res) (smoothOnePass_bound g res M hM hb) v hv

/-- C10 (implicit): on a grid of non-negative entries, every entry of
`applyGaussianSmooth`, for any resolution and number of passes, stays
non-negative and never exceeds the maximum entry of the input grid. -/
theorem smooth_nonneg_and_bounded_by_max (g : List ℚ) (res passes : Nat)
    (hpos : ∀ v ∈ g, 0 ≤ v) :
    ∀ v ∈ applyGaussianSmooth g res passes, 0 ≤ v ∧ v ≤ gridMax g :=
  applyGaussianSmooth_bound res (gridMax g) (gridMax_nonneg g) passes g
    (fun v hv => ⟨hpos v hv, le_gridMax g v hv⟩)

/-- Witness for C10: a one-cell grid at 0 passes and an all-zero 2×2 grid
after one pass stay within `[0, max]`. -/
theorem smooth_nonneg_and_bounded_by_max_witness :
    (0 ≤ (5 : ℚ) ∧ (5 : ℚ) ≤ gridMax [5]) ∧
    (0 ≤ (0 : ℚ) ∧ (0 : ℚ) ≤ gridMax [0, 0, 0, 0]) :=
  ⟨smooth_nonneg_and_bounded_by_max [5] 1 0 (by decide) 5 (by decide),
   smooth_nonneg_and_bounded_by_max [0, 0, 0, 0] 2 1 (by decide) 0 (by decide)⟩

/-! Lemmas for the nearest-neighbor resampling loop. -/

lemma coerceFlow_nonneg (v : Option ℚ) : 0 ≤ coerceFlow v := by
  cases v with
  | none => exact le_refl 0
  | some q =>
    simp only [coerceFlow]
    split_ifs with h
    · exact le_of_lt h
    · exact le_refl 0

lemma maxStep_eq (v m : ℚ) (hv : 0 < v) :
    (if 0 < v ∧ m < v then v else m) = max m v := by
  by_cases hm : m < v
  · rw [if_pos ⟨hv, hm⟩, max_eq_right (le_of_lt hm)]
  · rw [if_neg (fun hc => hm hc.2), max_eq_left (not_lt.mp hm)]

lemma load_foldl (pixels : List (Option ℚ)) (width height gridRes : Nat) :
    ∀ (l : List Nat) (fh : List ℚ) (m : ℚ) (n : Nat),
      l.foldl (fun acc idx =>
        let x := idx % gridRes
        let y := idx / gridRes
        let flowHeight := resampleCell pixels width height gridRes x y
        (acc.1 ++ [flowHeight],
         if 0 < flowHeight ∧ acc.2.1 < flowHeight then flowHeight else acc.2.1,
         if 0 < flowHeight then acc.2.2 + 1 else acc.2.2)) (fh, m, n)
      = (fh ++ l.map (fun idx =>
            resampleCell pixels width height gridRes (idx % gridRes) (idx / gridRes)),
         ((l.map (fun idx =>
            resampleCell pixels width height gridRes (idx % gridRes) (idx / gridRes))).filter
              (fun v => decide (0 < v))).foldl max m,
         n + ((l.map (fun idx =>
            resampleCell pixels width height gridRes (idx % gridRes) (idx / gridRes))).filter
              (fun v => decide (0 < v))).length) := by
  intro l
  induction l with
  | nil => intro fh m n; simp
  | cons idx l ih =>
    intro fh m n
    rw [List.foldl_cons]
    simp only []
    rw [ih]
    by_cases hv : 0 < resampleCell pixels width height gridRes (idx % gridRes) (idx / gridRes)
    · have hmax := maxStep_eq
        (resampleCell pixels width height gridRes (idx % gridRes) (idx / gridRes)) m hv
      rw [hmax]
      simp [hv, List.append_assoc]
      omega
    · have hif : (if 0 < resampleCell pixels width height gridRes (idx % gridRes) (idx / gridRes) ∧
            m < resampleCell pixels width height gridRes (idx % gridRes) (idx / gridRes)
          then resampleCell pixels width height gridRes (idx % gridRes) (idx / gridRes)
          else m) = m := if_neg (fun hc => hv hc.1)
      rw [hif]
      simp [hv, List.append_assoc]

/-- C6: the resampling loop of `loadTiffFrame` fills the grid with
nearest-neighbor samples (floored source index from normalized
coordinates), coerces NaN/negative/zero samples to 0 (all entries are
non-negative), and its tracked `maxHeight` and `nonZeroCount` are the
maximum over the positive resampled values (0 when there are none) and the
number of positive values.  `gridResolution ≥ 2` keeps the normalized
coordinates well defined (the source divides by `gridResolution - 1`). -/
theorem loadFrame_resample_spec (pixels : List (Option ℚ)) (width height gridRes : Nat)
    (h2 : 2 ≤ gridRes) :
    (loadTiffResample pixels width height gridRes).flowHeights.length = gridRes * gridRes ∧
    (∀ x y, x < gridRes → y < gridRes →
      (loadTiffResample pixels width height gridRes).flowHeights.getD (y * gridRes + x) 0
        = coerceFlow (pixelGet pixels
            (⌊((y : ℚ) / ((gridRes : ℚ) - 1)) * ((height : ℚ) - 1)⌋ * width +
             ⌊((x : ℚ) / ((gridRes : ℚ) - 1)) * ((width : ℚ) - 1)⌋))) ∧
    (∀ i, 0 ≤ (loadTiffResample pixels width height gridRes).flowHeights.getD i 0) ∧
    (loadTiffResample pixels width height gridRes).maxHeight
      = (((loadTiffResample pixels width height gridRes).flowHeights).filter
          (fun v => decide (0 < v))).foldl max 0 ∧
    (loadTiffResample pixels width height gridRes).nonZeroCount
      = (((loadTiffResample pixels width height gridRes).flowHeights).filter
          (fun v => decide (0 < v))).length := by
  have hres : loadTiffResample pixels width height gridRes
      = { flowHeights := (List.range (gridRes * gridRes)).map (fun idx =>
            resampleCell pixels width height gridRes (idx % gridRes) (idx / gridRes)),
          maxHeight := (((List.range (gridRes * gridRes)).map (fun idx =>
            resampleCell pixels width height gridRes (idx % gridRes) (idx / gridRes))).filter
              (fun v => decide (0 < v))).foldl max 0,
          nonZeroCount := (((List.range (gridRes * gridRes)).map (fun idx =>
            resampleCell pixels width height gridRes (idx % gridRes) (idx / gridRes))).filter
              (fun v => decide (0 < v))).length } := by
    unfold loadTiffResample
    rw [load_foldl pixels width height gridRes (List.range (gridRes * gridRes)) [] 0 0]
    simp
  rw [hres]
  refine ⟨by simp, ?_, ?_, rfl, rfl⟩
  · intro x y hx hy
    have hg : 0 < gridRes := by omega
    have hidx : y * gridRes + x < gridRes * gridRes := by
      calc y * gridRes + x < y * gridRes + gridRes := by omega
        _ = (y + 1) * gridRes := by ring
        _ ≤ gridRes * gridRes := Nat.mul_le_mul_right _ (by omega)
    show ((List.range (gridRes * gridRes)).map (fun idx =>
        resampleCell pixels width height gridRes (idx % gridRes) (idx / gridRes))).getD
        (y * gridRes + x) 0 = _
    rw [getD_map_range _ _ _ _ hidx]
    have hmod : (y * gridRes + x) % gridRes = x := by
      rw [Nat.mul_comm y gridRes, Nat.mul_add_mod, Nat.mod_eq_of_lt hx]
    have hdiv : (y * gridRes + x) / gridRes = y := by
      rw [Nat.mul_comm y gridRes, Nat.mul_add_div hg, Nat.div_eq_of_lt hx, Nat.add_zero]
    rw [hmod, hdiv]
    rfl
  · intro i
    show 0 ≤ ((List.range (gridRes * gridRes)).map (fun idx =>
        resampleCell pixels width height gridRes (idx % gridRes) (idx / gridRes))).getD i 0
    by_cases hi : i < gridRes * gridRes
    · rw [getD_map_range _ _ _ _ hi]
      exact coerceFlow_nonneg _
    · rw [getD_map_range_ge _ _ _ _ (Nat.le_of_not_lt hi)]

/-- Witness for C6 on a 2×2 raster resampled to a 2×2 grid: the sample
grid is the identity mapping, negative and NaN pixels coerce to 0, the
maximum is 3 and two cells are positive. -/
theorem loadFrame_resample_spec_witness :
    (loadTiffResample [some 2, some (-1), none, some 3] 2 2 2).flowHeights.length = 4 ∧
    (loadTiffResample [some 2, some (-1), none, some 3] 2 2 2).maxHeight
      = (((loadTiffResample [some 2, some (-1), none, some 3] 2 2 2).flowHeights).filter
          (fun v => decide (0 < v))).foldl max 0 ∧
    (loadTiffResample [some 2, some (-1), none, some 3] 2 2 2).nonZeroCount
      = (((loadTiffResample [some 2, some (-1), none, some 3] 2 2 2).flowHeights).filter
          (fun v => decide (0 < v))).length :=
  ⟨(loadFrame_resample_spec [some 2, some (-1), none, some 3] 2 2 2 (by decide)).1,
   (loadFrame_resample_spec [some 2, some (-1), none, some 3] 2 2 2 (by decide)).2.2.2.1,
   (loadFrame_resample_spec [some 2, some (-1), none, some 3] 2 2 2 (by decide)).2.2.2.2⟩

/-! Lemmas for the smoothing-parameter round trip. -/

/-- The time-and-mesh content of a mesh cache, ignoring visibility. -/
def meshesOf (mc : List (ℚ × MeshGraphic)) : List (ℚ × Mesh) :=
  mc.map (fun e => (e.1, e.2.mesh))

lemma setVis_meshesOf (mc : List (ℚ × MeshGraphic)) (t : ℚ) (b : Bool) :
    meshesOf (setVis mc t b) = meshesOf mc := by
  unfold meshesOf setVis
  rw [List.map_map]
  refine List.map_congr_left (fun e _ => ?_)
  by_cases h : e.1 = t <;> simp [h]

lemma displayFrame_preserves (s : EngineState) (i : Nat) :
    (displayFrame s i).1.viewSet = s.viewSet ∧
    (displayFrame s i).1.timeSteps = s.timeSteps ∧
    (displayFrame s i).1.frameCache = s.frameCache ∧
    (displayFrame s i).1.meshExtent = s.meshExtent ∧
    (displayFrame s i).1.baseGridData = s.baseGridData ∧
    (displayFrame s i).1.smoothedGridData = s.smoothedGridData ∧
    (displayFrame s i).1.state.smoothingFactor = s.state.smoothingFactor ∧
    (displayFrame s i).1.state.flattenPasses = s.state.flattenPasses ∧
    (displayFrame s i).1.terrainConfig = s.terrainConfig ∧
    (displayFrame s i).1.colorStops = s.colorStops ∧
    meshesOf (displayFrame s i).1.meshCache = meshesOf s.meshCache := by
  unfold displayFrame
  by_cases hv : s.viewSet = false
  · simp [hv]
  · rw [if_neg hv]
    cases hgt : s.timeSteps.get? i with
    | none => simp
    | some t =>
      simp only []
      cases hc : s.currentFrameTime with
      | none => simp [setVis_meshesOf]
      | some prevT => simp [setVis_meshesOf]

lemma buildCacheList_congr (s s' : EngineState) (bg : GridData)
    (h1 : s'.timeSteps = s.timeSteps) (h2 : s'.frameCache = s.frameCache)
    (h3 : s'.colorStops = s.colorStops) (h4 : s'.smoothedGridData = s.smoothedGridData)
    (h5 : s'.terrainConfig = s.terrainConfig)
    (h6 : s'.state.smoothingFactor = s.state.smoothingFactor)
    (h7 : s'.state.flattenPasses = s.state.flattenPasses) :
    buildCacheList s' bg = buildCacheList s bg := by
  unfold buildCacheList
  simp only [h1, h2, h3, h4, h5, h6, h7]

/-- C8: with a view, base grid and extent present, starting from a state
whose smoothing factor is 1, whose smoothed grid is absent (exactly what
`updateSmoothedGrid` produces for factor 1) and whose mesh cache is the
deterministic build for those parameters — the state after `initialize`
with factor 1 — calling `setSmoothing 3` and then `setSmoothing 1`
restores the identical (byte-for-byte) time-and-mesh set: each change
fully rebuilds the cache from the cached frames, so the round trip is an
identity on the cached meshes. -/
theorem setSmoothing_roundtrip (s : EngineState) (bg : GridData) (ext : ExtentData)
    (hview : s.viewSet = true) (hbg : s.baseGridData = some bg)
    (hext : s.meshExtent = some ext) (hsf : s.state.smoothingFactor = 1)
    (hsgd : s.smoothedGridData = none) (hmc : s.meshCache = buildCacheList s bg) :
    meshesOf (setSmoothing (setSmoothing s 3).1 1).1.meshCache = meshesOf s.meshCache := by
  set A := rebuildMeshCache (updateSmoothedGrid
    { s with state := { s.state with smoothingFactor := 3 } }) with hAdef
  have hstep1 : (setSmoothing s 3).1 = (displayFrame A A.state.currentFrameIndex).1 := rfl
  have hA : A.viewSet = true ∧ A.baseGridData = some bg ∧ A.meshExtent = some ext ∧
      A.timeSteps = s.timeSteps ∧ A.frameCache = s.frameCache ∧
      A.colorStops = s.colorStops ∧ A.terrainConfig = s.terrainConfig ∧
      A.state.flattenPasses = s.state.flattenPasses := by
    rw [hAdef]
    simp [rebuildMeshCache, updateSmoothedGrid, hview, hbg, hext]
  obtain ⟨a1, a2, a3, a4, a5, a6, a7, a8⟩ := hA
  obtain ⟨p1, p2, p3, p4, p5, p6, p7, p8, p9, p10, p11⟩ :=
    displayFrame_preserves A A.state.currentFrameIndex
  set t := (displayFrame A A.state.currentFrameIndex).1 with htdef
  set u := updateSmoothedGrid
    { t with state := { t.state with smoothingFactor := 1 } } with hudef
  have hstep2 : (setSmoothing t 1).1
      = (displayFrame (rebuildMeshCache u) (rebuildMeshCache u).state.currentFrameIndex).1 := rfl
  have hu : u =
      { t with
        state := { t.state with smoothingFactor := 1 },
        smoothedGridData := none } := by
    rw [hudef]
    simp [updateSmoothedGrid, p5.trans a2]
  have huview : u.viewSet = true := by rw [hu]; exact p1.trans a1
  have hubg : u.baseGridData = some bg := by rw [hu]; exact p5.trans a2
  have huext : u.meshExtent = some ext := by rw [hu]; exact p4.trans a3
  have hBmc : (rebuildMeshCache u).meshCache = buildCacheList u bg := by
    unfold rebuildMeshCache
    rw [huview, hubg, huext]
  have hbuild : buildCacheList u bg = buildCacheList s bg := by
    refine buildCacheList_congr s u bg ?_ ?_ ?_ ?_ ?_ ?_ ?_
    · rw [hu]; exact p2.trans a4
    · rw [hu]; exact p3.trans a5
    · rw [hu]; exact p10.trans a6
    · rw [hu, hsgd]
    · rw [hu]; exact p9.trans a7
    · rw [hu, hsf]
    · rw [hu]; exact p8.trans a8
  obtain ⟨q1, q2, q3, q4, q5, q6, q7, q8, q9, q10, q11⟩ :=
    displayFrame_preserves (rebuildMeshCache u) (rebuildMeshCache u).state.currentFrameIndex
  rw [hstep1, hstep2, q11, hBmc, hbuild, ← hmc]

/-- A minimal initialized engine for the C8 witness: no frames, factor 1,
mesh cache equal to its own (empty) build. -/
def exInitEngine : EngineState :=
  { viewSet := true
    timeSteps := []
    frameCache := []
    meshCache := []
    meshExtent := some ⟨0, 0, 1, 1, 0⟩
    baseGridData := some ⟨[], []⟩
    smoothedGridData := none
    currentFrameTime := none
    state := { currentFrameIndex := 0, isPlaying := false, playbackSpeed := 5,
               smoothingFactor := 1, flattenPasses := 0 }
    animationInterval := none
    terrainConfig := ⟨1, 2⟩
    colorStops := [] }

/-- Witness for C8 at a minimal initialized engine (no frames, so the mesh
set is empty before and after the round trip). -/
theorem setSmoothing_roundtrip_witness :
    meshesOf (setSmoothing (setSmoothing exInitEngine 3).1 1).1.meshCache
      = meshesOf exInitEngine.meshCache :=
  setSmoothing_roundtrip exInitEngine ⟨[], []⟩ ⟨0, 0, 1, 1, 0⟩ rfl rfl rfl rfl rfl rfl

/-! The invalid-id path of `switchToAvalanche`. -/

lemma mgrPauseHideCurrent_fields (m : ManagerState) :
    (mgrPauseHideCurrent m).viewSet = m.viewSet ∧
    (mgrPauseHideCurrent m).configs = m.configs ∧
    (mgrPauseHideCurrent m).activeSimulationId = m.activeSimulationId ∧
    (mgrPauseHideCurrent m).playAllMode = m.playAllMode := by
  unfold mgrPauseHideCurrent
  cases ha : m.activeSimulationId with
  | none => exact ⟨rfl, rfl, ha, rfl⟩
  | some aid =>
    dsimp only
    cases hg : mgrGet m.simulations aid with
    | none => exact ⟨rfl, rfl, ha, rfl⟩
    | some cur => exact ⟨rfl, rfl, rfl, rfl⟩

/-- An engine that is currently playing, with one visible mesh graphic. -/
def exActiveEngine : EngineState :=
  { exEngine with state := { exEngine.state with isPlaying := true } }

/-- A manager with one loaded, active, playing simulation `"a"` and only
the config `"a"`. -/
def exManager : ManagerState :=
  { viewSet := true
    configs := [⟨"a", 2, (0, 4)⟩]
    simulations := [("a", exActiveEngine)]
    activeSimulationId := some "a"
    playAllMode := false }

/-- Counterexample to C9 as stated: switching to the unknown id `"b"`
surfaces the invalid-config error and leaves `"a"` active, but the prior
simulation's playback state and visibility are NOT untouched — it has been
paused (`isPlaying` flips from `true` to `false`) and its visible mesh has
been hidden before the lookup fails. -/
theorem switchTo_mutates_prior_counterexample :
    (switchToAvalanche (fun _ => Except.error SimError.initFailed) exManager "b").2
      = Except.error (SimError.invalidConfig "b") ∧
    (switchToAvalanche (fun _ => Except.error SimError.initFailed) exManager "b").1.activeSimulationId
      = some "a" ∧
    (mgrGet exManager.simulations "a").map (fun e => e.state.isPlaying) = some true ∧
    (mgrGet (switchToAvalanche (fun _ => Except.error SimError.initFailed)
        exManager "b").1.simulations "a").map (fun e => e.state.isPlaying) = some false ∧
    (mgrGet exManager.simulations "a").map (fun e => e.meshCache.map (fun g => g.2.visible))
      = some [false, true] ∧
    (mgrGet (switchToAvalanche (fun _ => Except.error SimError.initFailed)
        exManager "b").1.simulations "a").map (fun e => e.meshCache.map (fun g => g.2.visible))
      = some [false, false] := by
  refine ⟨rfl, rfl, rfl, rfl, rfl, rfl⟩

/-- C9 amended: `switchToAvalanche` with an id absent from the loaded
configs fails with the invalid-config error surfaced to the caller, and
the previously active simulation remains the active one (no field of the
manager changes except the engine map) — but that prior engine has already
been paused and hidden by the `mgrPauseHideCurrent` prologue before the
lookup fails. -/
theorem switchTo_invalid_id_spec (initOracle : AvalancheConfig → Except SimError EngineState)
    (m : ManagerState) (id : String)
    (hview : m.viewSet = true)
    (hfind : m.configs.find? (fun c => c.id == id) = none) :
    switchToAvalanche initOracle m id
      = (mgrPauseHideCurrent m, Except.error (SimError.invalidConfig id)) ∧
    (mgrPauseHideCurrent m).activeSimulationId = m.activeSimulationId ∧
    (mgrPauseHideCurrent m).configs = m.configs ∧
    (mgrPauseHideCurrent m).viewSet = m.viewSet ∧
    (mgrPauseHideCurrent m).playAllMode = m.playAllMode := by
  obtain ⟨f1, f2, f3, f4⟩ := mgrPauseHideCurrent_fields m
  refine ⟨?_, f3, f2, f1, f4⟩
  simp [switchToAvalanche, loadSimulation, hview, f1, f2, hfind]

/-- Witness for the amended C9 on the concrete manager: the invalid-config
error is returned and the resulting manager is exactly the pause-and-hide
mutation of the original. -/
theorem switchTo_invalid_id_spec_witness :
    switchToAvalanche (fun _ => Except.error SimError.initFailed) exManager "b"
      = (mgrPauseHideCurrent exManager, Except.error (SimError.invalidConfig "b")) ∧
    (mgrPauseHideCurrent exManager).activeSimulationId = some "a" :=
  ⟨(switchTo_invalid_id_spec (fun _ => Except.error SimError.initFailed) exManager "b"
      rfl (by decide)).1,
   ((switchTo_invalid_id_spec (fun _ => Except.error SimError.initFailed) exManager "b"
      rfl (by decide)).2.1).trans rfl⟩

end Ramms
